import Mathlib

/-!
Shallow embedding of the audio-player controller from
src/src/scripts/audio-player.ts and of the variant implementation in
src/unnamed/part_000.  JS numbers are modelled as rationals, the media
element as an explicit record, and each event handler as a pure function
on the whole controller state.  Asynchronous play requests are modelled
by an explicit outcome parameter; the play and pause events of the media
element are modelled by applying the icon-refresh handler to the state
the event leaves the handle in.
-/

namespace AudioPlayer

/-- Kind of a feedback toast, mirroring the type parameter of showFeedback. -/
inductive FeedbackKind
  | info
  | error
deriving DecidableEq

/-- Outcome of the asynchronous play request issued by the media element. -/
inductive PlayOutcome
  | resolves
  | rejects
deriving DecidableEq

/-- The external media playback primitive (the HTMLAudioElement), as far as
the controller reads and writes it.  The duration is none while metadata is
not loaded (NaN in JS); the JS idiom duration or 0 becomes Option.getD 0. -/
structure MediaHandle where
  currentTime : ℚ
  duration : Option ℚ
  paused : Bool
  volume : ℚ
  muted : Bool
  playbackRate : ℚ

/-- The PlayerState record of the controller (audio-player.ts lines 35-51). -/
structure PlayerState where
  isPlaying : Bool
  isMuted : Bool
  volume : ℚ
  playbackRate : ℚ
  isSeeking : Bool
  lastVolume : ℚ

/-- The pieces of the DOM that the controller writes: icon visibility
classes, text labels, slider values, the speed menu and the feedback toast.
speedChecked lists every speed-option button as a pair of its data-speed
value and its aria-checked flag. -/
structure UI where
  playIconHidden : Bool
  pauseIconHidden : Bool
  ariaPlayPause : String
  currentTimeText : String
  progressWidthPct : ℚ
  seekSliderValue : ℚ
  volumeIconHidden : Bool
  muteIconHidden : Bool
  volumeSliderValue : ℚ
  ariaVolumeBtn : String
  speedButtonText : String
  speedChecked : List (ℚ × Bool)
  speedMenuHidden : Bool
  feedback : Option (String × FeedbackKind)

/-- Whole controller state: the referenced media handle, the PlayerState
record and the DOM pieces. -/
structure Ctrl where
  handle : MediaHandle
  st : PlayerState
  ui : UI

/-- SUPPORTED_SPEEDS constant (line 56). -/
def SUPPORTED_SPEEDS : List ℚ := [0.5, 0.75, 1, 1.25, 1.5, 1.75, 2]

/-- SEEK_JUMP constant (line 54): seconds for the j and k keys. -/
def SEEK_JUMP : ℚ := 10

/-- VOLUME_JUMP constant (line 55): 5 percent volume change. -/
def VOLUME_JUMP : ℚ := 0.05

/-- Decimal rendering of a number by a JS template literal, fixed on the
finitely many values that reach it (the supported playback speeds). -/
def jsNumStr (q : ℚ) : String :=
  if q = 0.5 then "0.5"
  else if q = 0.75 then "0.75"
  else if q = 1 then "1"
  else if q = 1.25 then "1.25"
  else if q = 1.5 then "1.5"
  else if q = 1.75 then "1.75"
  else if q = 2 then "2"
  else toString q.num ++ "/" ++ toString q.den

/-- Two-digit zero padding, the padStart call inside formatTime. -/
def pad2 (n : ℕ) : String :=
  if n < 10 then "0" ++ toString n else toString n

/-- formatTime (lines 101-107).  A negative input renders as 00:00; for a
non-negative rational, Math.floor of seconds mod 60 equals the integer floor
of the seconds taken mod 60. -/
def formatTime (seconds : ℚ) : String :=
  if seconds < 0 then "00:00"
  else
    let mins := (⌊seconds / 60⌋).toNat
    let secs := (⌊seconds⌋).toNat % 60
    pad2 mins ++ ":" ++ pad2 secs

/-- showFeedback (lines 189-205): records the toast message and kind.  The
auto-hide timer only clears the toast later and is not part of any claim. -/
def showFeedback (c : Ctrl) (message : String) (kind : FeedbackKind) : Ctrl :=
  { c with ui := { c.ui with feedback := some (message, kind) } }

/-- updateProgress (lines 121-141): a no-op while seeking; otherwise pushes
time label, progress width and slider position derived from the handle. -/
def updateProgress (c : Ctrl) : Ctrl :=
  if c.st.isSeeking then c
  else
    let currentTime := c.handle.currentTime
    let duration := c.handle.duration.getD 0
    let progressPercent := if duration = 0 then 0 else currentTime / duration * 100
    { c with ui := { c.ui with
        currentTimeText := formatTime currentTime,
        progressWidthPct := progressPercent,
        seekSliderValue := progressPercent } }

/-- updatePlayPauseIcon (lines 176-187): reconciles both icons, the
isPlaying flag and the button label from the paused flag of the handle. -/
def updatePlayPauseIcon (c : Ctrl) : Ctrl :=
  let isPlaying := !c.handle.paused
  { c with
    st := { c.st with isPlaying := isPlaying },
    ui := { c.ui with
      playIconHidden := !c.handle.paused,
      pauseIconHidden := c.handle.paused,
      ariaPlayPause := if isPlaying then "Pause" else "Play" } }

/-- togglePlayPause (lines 158-174) together with the play and pause event
listeners (lines 272-273).  When paused, a play request is issued: if the
browser grants it the handle starts playing and the play event refreshes the
icon; if it rejects, the handle stays paused, the synchronous icon refresh
runs, and the catch handler shows an error toast.  When playing, pause is
synchronous and the pause event refreshes the icon.  The function is total:
no exception escapes to the caller. -/
def togglePlayPause (c : Ctrl) (out : PlayOutcome) : Ctrl :=
  if c.handle.paused then
    match out with
    | PlayOutcome.resolves =>
        updatePlayPauseIcon { c with handle := { c.handle with paused := false } }
    | PlayOutcome.rejects =>
        showFeedback (updatePlayPauseIcon c) "Playback failed" FeedbackKind.error
  else
    updatePlayPauseIcon { c with handle := { c.handle with paused := true } }

/-- updateVolume (lines 243-267): clamps to the unit interval, writes the
handle volume, derives the mute flag on handle and state, and reconciles the
volume icons, slider value and button label. -/
def updateVolume (c : Ctrl) (volume : ℚ) : Ctrl :=
  let clampedVolume := max 0 (min 1 volume)
  let isMuted : Bool := clampedVolume = 0
  { c with
    handle := { c.handle with volume := clampedVolume, muted := isMuted },
    st := { c.st with volume := clampedVolume, isMuted := isMuted },
    ui := { c.ui with
      volumeIconHidden := isMuted,
      muteIconHidden := !isMuted,
      volumeSliderValue := clampedVolume * 100,
      ariaVolumeBtn := if isMuted then "Unmute" else "Mute" } }

/-- The mute-button click handler (lines 321-333).  If state.isMuted it
restores lastVolume (0.5 when lastVolume is falsy) via updateVolume, else it
captures the handle volume into lastVolume and calls updateVolume 0.  The
handler then executes the statement state.isMuted = not state.isMuted, which
inverts the flag that updateVolume has just derived. -/
def toggleMute (c : Ctrl) : Ctrl :=
  let c1 :=
    if c.st.isMuted then
      updateVolume c (if c.st.lastVolume = 0 then 0.5 else c.st.lastVolume)
    else
      updateVolume { c with st := { c.st with lastVolume := c.handle.volume } } 0
  { c1 with st := { c1.st with isMuted := !c1.st.isMuted } }

/-- setPlaybackSpeed (lines 207-235): a no-op unless the rate is supported;
otherwise writes the handle rate, the state rate, the indicator text, the
aria-checked flag of every speed option, shows a toast, and closes the menu. -/
def setPlaybackSpeed (c : Ctrl) (speed : ℚ) : Ctrl :=
  if speed ∈ SUPPORTED_SPEEDS then
    let c1 : Ctrl :=
      { c with
        handle := { c.handle with playbackRate := speed },
        st := { c.st with playbackRate := speed },
        ui := { c.ui with
          speedButtonText := jsNumStr speed ++ "x",
          speedChecked := c.ui.speedChecked.map (fun p => (p.1, decide (p.1 = speed))) } }
    let c2 := showFeedback c1 ("Speed: " ++ jsNumStr speed ++ "x") FeedbackKind.info
    { c2 with ui := { c2.ui with speedMenuHidden := true } }
  else c

/-- The seek-slider input handler (lines 300-309), modelled at the moment
the debounced callback fires with the slider at sliderValue percent: sets
isSeeking, and renders the pending time label and progress width from the
scrub position without touching the handle. -/
def seekSliderInput (c : Ctrl) (sliderValue : ℚ) : Ctrl :=
  let c0 : Ctrl := { c with ui := { c.ui with seekSliderValue := sliderValue } }
  let duration := c0.handle.duration.getD 0
  let currentTime := sliderValue / 100 * duration
  { c0 with
    st := { c0.st with isSeeking := true },
    ui := { c0.ui with
      currentTimeText := formatTime currentTime,
      progressWidthPct := sliderValue } }

/-- The seek-slider change handler (lines 311-318): writes the scrub
position to the handle, clears isSeeking, and shows a toast with the
destination timestamp. -/
def seekSliderChange (c : Ctrl) (sliderValue : ℚ) : Ctrl :=
  let c0 : Ctrl := { c with ui := { c.ui with seekSliderValue := sliderValue } }
  let duration := c0.handle.duration.getD 0
  let c1 : Ctrl :=
    { c0 with
      handle := { c0.handle with currentTime := sliderValue / 100 * duration },
      st := { c0.st with isSeeking := false } }
  showFeedback c1 ("Jumped to " ++ formatTime c1.handle.currentTime) FeedbackKind.info

/-- The keydown case for j (lines 423-429): back SEEK_JUMP seconds, clamped
below by 0, with a feedback toast. -/
def keyJ (c : Ctrl) : Ctrl :=
  let t := max 0 (c.handle.currentTime - SEEK_JUMP)
  let c1 : Ctrl := { c with handle := { c.handle with currentTime := t } }
  showFeedback c1 ("-10s (" ++ formatTime t ++ ")") FeedbackKind.info

/-- The keydown case for k (lines 431-437): forward SEEK_JUMP seconds,
clamped above by the duration (or 0 when unknown), with a feedback toast. -/
def keyK (c : Ctrl) : Ctrl :=
  let t := min (c.handle.duration.getD 0) (c.handle.currentTime + SEEK_JUMP)
  let c1 : Ctrl := { c with handle := { c.handle with currentTime := t } }
  showFeedback c1 ("+10s (" ++ formatTime t ++ ")") FeedbackKind.info

/-- The seekTo member of the exported window.audioPlayer object
(lines 515-517): writes the argument straight to the handle position. -/
def seekTo (c : Ctrl) (time : ℚ) : Ctrl :=
  { c with handle := { c.handle with currentTime := time } }

/-- updatePlayPauseIcon of the variant implementation
(src/unnamed/part_000 lines 97-106): icons only, no state or aria label. -/
def variantUpdatePlayPauseIcon (c : Ctrl) : Ctrl :=
  if c.handle.paused then
    { c with ui := { c.ui with playIconHidden := false, pauseIconHidden := true } }
  else
    { c with ui := { c.ui with playIconHidden := true, pauseIconHidden := false } }

/-- togglePlayPause of the variant implementation (src/unnamed/part_000
lines 87-95).  When the handle is playing, the else branch is the bare
expression statement reading the paused property, a no-op; only the icon
refresh runs.  The play branch has no catch handler. -/
def variantTogglePlayPause (c : Ctrl) (out : PlayOutcome) : Ctrl :=
  if c.handle.paused then
    match out with
    | PlayOutcome.resolves =>
        variantUpdatePlayPauseIcon { c with handle := { c.handle with paused := false } }
    | PlayOutcome.rejects =>
        variantUpdatePlayPauseIcon c
  else
    variantUpdatePlayPauseIcon c

/-- The DOM state right after createSpeedControl and initialize have run:
paused, volume one half, rate 1, each speed option checked exactly when its
speed is 1. -/
def ui0 : UI :=
  { playIconHidden := false
    pauseIconHidden := true
    ariaPlayPause := "Play"
    currentTimeText := "00:00"
    progressWidthPct := 0
    seekSliderValue := 0
    volumeIconHidden := false
    muteIconHidden := true
    volumeSliderValue := 50
    ariaVolumeBtn := "Mute"
    speedButtonText := "1x"
    speedChecked := SUPPORTED_SPEEDS.map (fun s => (s, decide (s = 1)))
    speedMenuHidden := true
    feedback := none }

/-- A concrete controller state: paused at the start of a 120 second track,
volume one half. -/
def c0 : Ctrl :=
  { handle :=
      { currentTime := 0
        duration := some 120
        paused := true
        volume := 1 / 2
        muted := false
        playbackRate := 1 }
    st :=
      { isPlaying := false
        isMuted := false
        volume := 1 / 2
        playbackRate := 1
        isSeeking := false
        lastVolume := 1 / 2 }
    ui := ui0 }

/-- Concrete state for the mute-toggle trace: unmuted, playing volume 4/5. -/
def cMuteEx : Ctrl :=
  { c0 with
    handle := { c0.handle with volume := 4 / 5 },
    st := { c0.st with volume := 4 / 5 } }

/-- Concrete state for the seek scenario: duration 200 seconds. -/
def cSeekEx : Ctrl :=
  { c0 with handle := { c0.handle with duration := some 200 } }

/-- Concrete state for the keyboard-seek scenario: position 3 seconds into
a 120 second track. -/
def cKeyEx : Ctrl :=
  { c0 with handle := { c0.handle with currentTime := 3 } }

/-- Concrete state in which the handle is currently playing. -/
def cPlayingEx : Ctrl :=
  { c0 with handle := { c0.handle with paused := false } }

/-- C1: for every volume value v, updateVolume clamps v to the unit
interval, writes the clamped value to the handle volume, and afterwards the
muted flag on the handle and on the controller state is true exactly when
the clamped volume is 0. -/
theorem updateVolume_clamps_and_derives_mute (c : Ctrl) (v : ℚ) :
    (updateVolume c v).handle.volume = max 0 (min 1 v) ∧
    ((updateVolume c v).handle.muted = true ↔ max 0 (min 1 v) = 0) ∧
    (updateVolume c v).st.isMuted = (updateVolume c v).handle.muted ∧
    ((updateVolume c v).st.isMuted = true ↔ (updateVolume c v).handle.volume = 0) := by
  refine ⟨rfl, ?_, rfl, ?_⟩ <;> simp [updateVolume]

/-- C3: after every invocation of updatePlayPauseIcon, the play icon is
visible exactly when the handle is paused, the pause icon is visible exactly
when it is not, and state.isPlaying is the negation of the paused flag; the
handler reads nothing but the paused flag of the handle. -/
theorem updatePlayPauseIcon_reflects_paused (c : Ctrl) :
    ((updatePlayPauseIcon c).ui.playIconHidden = false ↔ c.handle.paused = true) ∧
    ((updatePlayPauseIcon c).ui.pauseIconHidden = false ↔ c.handle.paused = false) ∧
    (updatePlayPauseIcon c).st.isPlaying = !c.handle.paused ∧
    (updatePlayPauseIcon c).handle = c.handle := by
  cases h : c.handle.paused <;> simp [updatePlayPauseIcon, h]

/-- C8: committing the same seek-slider value twice in a row yields the same
handle position both times; the second commit recomputes the very same
product of fraction and duration. -/
theorem seekSliderChange_idempotent (c : Ctrl) (v : ℚ) :
    (seekSliderChange (seekSliderChange c v) v).handle.currentTime
      = (seekSliderChange c v).handle.currentTime := by
  simp [seekSliderChange, showFeedback]

/-- C10: the exported seekTo writes its argument to the handle position
unchanged, for every time value, with no clamping, and leaves the whole UI
(feedback toast included) and the controller state untouched; the keyboard
seek key j, by contrast, clamps at 0 and always sets a feedback toast. -/
theorem seekTo_writes_raw_position (c : Ctrl) (t : ℚ) :
    (seekTo c t).handle.currentTime = t ∧
    (seekTo c t).ui = c.ui ∧
    (seekTo c t).st = c.st ∧
    (keyJ c).handle.currentTime = max 0 (c.handle.currentTime - 10) ∧
    (keyJ c).ui.feedback.isSome = true := by
  refine ⟨rfl, rfl, rfl, rfl, rfl⟩

/-- Helper: re-marking every option against r and keeping the checked ones
keeps exactly the first components equal to r. -/
theorem list_filter_mark_fst (r : ℚ) (l : List (ℚ × Bool)) :
    ((l.map (fun p => (p.1, decide (p.1 = r)))).filter (fun p => p.2)).map Prod.fst
      = (l.map Prod.fst).filter (fun a => decide (a = r)) := by
  induction l with
  | nil => rfl
  | cons p l ih =>
    by_cases h : p.1 = r <;> simp [h, ih]

/-- C6: when the speed-option buttons are the ones createSpeedControl made,
setPlaybackSpeed at a supported rate r writes r to the handle rate and the
state rate, sets the indicator text to the rendering of r followed by x,
and leaves exactly one option checked, the one whose data-speed is r; at an
unsupported rate it returns the state unchanged. -/
theorem setPlaybackSpeed_cases (c : Ctrl) (r : ℚ)
    (hopts : c.ui.speedChecked.map Prod.fst = SUPPORTED_SPEEDS) :
    (r ∈ SUPPORTED_SPEEDS →
      (setPlaybackSpeed c r).handle.playbackRate = r ∧
      (setPlaybackSpeed c r).st.playbackRate = r ∧
      (setPlaybackSpeed c r).ui.speedButtonText = jsNumStr r ++ "x" ∧
      ((setPlaybackSpeed c r).ui.speedChecked.filter (fun p => p.2)).map Prod.fst
        = [r]) ∧
    (r ∉ SUPPORTED_SPEEDS → setPlaybackSpeed c r = c) := by
  constructor
  · intro hr
    have hsc : (setPlaybackSpeed c r).ui.speedChecked
        = c.ui.speedChecked.map (fun p => (p.1, decide (p.1 = r))) := by
      simp [setPlaybackSpeed, hr, showFeedback]
    refine ⟨?_, ?_, ?_, ?_⟩
    · simp [setPlaybackSpeed, hr, showFeedback]
    · simp [setPlaybackSpeed, hr, showFeedback]
    · simp [setPlaybackSpeed, hr, showFeedback]
    · rw [hsc, list_filter_mark_fst, hopts]
      simp only [SUPPORTED_SPEEDS, List.mem_cons, List.not_mem_nil, or_false] at hr
      rcases hr with rfl | rfl | rfl | rfl | rfl | rfl | rfl <;>
        norm_num [SUPPORTED_SPEEDS, List.filter_cons]
  · intro hr
    simp [setPlaybackSpeed, hr]

/-- C6 witness: rate 1.5 is applied and checked alone; rate 3 is a no-op. -/
theorem setPlaybackSpeed_cases_witness :
    (setPlaybackSpeed c0 1.5).handle.playbackRate = 1.5 ∧
    (setPlaybackSpeed c0 1.5).st.playbackRate = 1.5 ∧
    (setPlaybackSpeed c0 1.5).ui.speedButtonText = jsNumStr 1.5 ++ "x" ∧
    ((setPlaybackSpeed c0 1.5).ui.speedChecked.filter (fun p => p.2)).map Prod.fst
      = [1.5] ∧
    setPlaybackSpeed c0 3 = c0 :=
  ⟨((setPlaybackSpeed_cases c0 1.5 rfl).1 (by norm_num [SUPPORTED_SPEEDS])).1,
   ((setPlaybackSpeed_cases c0 1.5 rfl).1 (by norm_num [SUPPORTED_SPEEDS])).2.1,
   ((setPlaybackSpeed_cases c0 1.5 rfl).1 (by norm_num [SUPPORTED_SPEEDS])).2.2.1,
   ((setPlaybackSpeed_cases c0 1.5 rfl).1 (by norm_num [SUPPORTED_SPEEDS])).2.2.2,
   (setPlaybackSpeed_cases c0 3 rfl).2 (by norm_num [SUPPORTED_SPEEDS])⟩

/-- C5: with duration d known, a drag of the seek slider to fraction f
(slider value f times 100) leaves the handle untouched, sets isSeeking,
renders the pending time label and progress width from f times d, and makes
the live time-update handler a no-op; only the commit writes f times d to
the handle position, clears isSeeking, and shows the toast with the
destination timestamp. -/
theorem seek_scrub_then_commit (c : Ctrl) (f d : ℚ)
    (hd : c.handle.duration = some d) :
    (seekSliderInput c (f * 100)).handle = c.handle ∧
    (seekSliderInput c (f * 100)).st.isSeeking = true ∧
    (seekSliderInput c (f * 100)).ui.currentTimeText = formatTime (f * d) ∧
    (seekSliderInput c (f * 100)).ui.progressWidthPct = f * 100 ∧
    updateProgress (seekSliderInput c (f * 100)) = seekSliderInput c (f * 100) ∧
    (seekSliderChange (seekSliderInput c (f * 100)) (f * 100)).handle.currentTime
      = f * d ∧
    (seekSliderChange (seekSliderInput c (f * 100)) (f * 100)).st.isSeeking
      = false ∧
    (seekSliderChange (seekSliderInput c (f * 100)) (f * 100)).ui.feedback
      = some ("Jumped to " ++ formatTime (f * d), FeedbackKind.info) := by
  have harg : f * 100 / 100 * d = f * d := by ring
  refine ⟨rfl, rfl, ?_, rfl, rfl, ?_, rfl, ?_⟩
  · simp [seekSliderInput, hd, harg]
  · simp [seekSliderChange, seekSliderInput, showFeedback, hd, harg]
  · simp [seekSliderChange, seekSliderInput, showFeedback, hd, harg]

/-- C5 witness: the spec scenario, duration 200 and fraction one half: the
pending label reads 01:40, the commit lands on position 100 and the toast
reads Jumped to 01:40. -/
theorem seek_scrub_then_commit_witness :
    ((seekSliderInput cSeekEx (1 / 2 * 100)).handle = cSeekEx.handle ∧
     (seekSliderInput cSeekEx (1 / 2 * 100)).st.isSeeking = true ∧
     (seekSliderInput cSeekEx (1 / 2 * 100)).ui.currentTimeText
       = formatTime (1 / 2 * 200) ∧
     (seekSliderInput cSeekEx (1 / 2 * 100)).ui.progressWidthPct = 1 / 2 * 100 ∧
     updateProgress (seekSliderInput cSeekEx (1 / 2 * 100))
       = seekSliderInput cSeekEx (1 / 2 * 100) ∧
     (seekSliderChange (seekSliderInput cSeekEx (1 / 2 * 100))
         (1 / 2 * 100)).handle.currentTime = 1 / 2 * 200 ∧
     (seekSliderChange (seekSliderInput cSeekEx (1 / 2 * 100))
         (1 / 2 * 100)).st.isSeeking = false ∧
     (seekSliderChange (seekSliderInput cSeekEx (1 / 2 * 100))
         (1 / 2 * 100)).ui.feedback
       = some ("Jumped to " ++ formatTime (1 / 2 * 200), FeedbackKind.info)) ∧
    formatTime (1 / 2 * 200) = "01:40" ∧
    (1 / 2 : ℚ) * 200 = 100 :=
  ⟨seek_scrub_then_commit cSeekEx (1 / 2) 200 rfl,
   by norm_num [formatTime, pad2]; rfl,
   by norm_num⟩

/-- C2: trace of the mute-button bug at a concrete state.  Starting unmuted
at volume 4/5, the first click drives the volume to 0 but the trailing
statement state.isMuted = not state.isMuted flips the derived flag back to
false, so the second click takes the mute branch again, overwrites
lastVolume with 0, and leaves the volume at 0 with the handle muted instead
of restoring 4/5 unmuted. -/
theorem toggleMute_twice_does_not_restore :
    cMuteEx.handle.volume = 4 / 5 ∧
    cMuteEx.st.isMuted = false ∧
    (toggleMute cMuteEx).handle.volume = 0 ∧
    (toggleMute cMuteEx).handle.muted = true ∧
    (toggleMute cMuteEx).st.isMuted = false ∧
    (toggleMute cMuteEx).st.lastVolume = 4 / 5 ∧
    (toggleMute (toggleMute cMuteEx)).handle.volume = 0 ∧
    (toggleMute (toggleMute cMuteEx)).handle.muted = true ∧
    (toggleMute (toggleMute cMuteEx)).st.lastVolume = 0 := by
  refine ⟨rfl, rfl, ?_, ?_, ?_, ?_, ?_, ?_, ?_⟩ <;>
    norm_num [toggleMute, updateVolume, cMuteEx, c0, ui0]

/-- C4: when the handle is paused and the asynchronous play request is
rejected, togglePlayPause (a total function, so no exception reaches the
caller) leaves the handle paused, leaves state.isPlaying false, and shows
the error-kind feedback toast from the catch handler. -/
theorem togglePlayPause_rejection_handled (c : Ctrl)
    (h : c.handle.paused = true) :
    (togglePlayPause c PlayOutcome.rejects).handle.paused = true ∧
    (togglePlayPause c PlayOutcome.rejects).st.isPlaying = false ∧
    (togglePlayPause c PlayOutcome.rejects).ui.feedback
      = some ("Playback failed", FeedbackKind.error) := by
  simp [togglePlayPause, h, showFeedback, updatePlayPauseIcon]

/-- C4 witness: the rejected play request at the concrete paused state. -/
theorem togglePlayPause_rejection_handled_witness :
    (togglePlayPause c0 PlayOutcome.rejects).handle.paused = true ∧
    (togglePlayPause c0 PlayOutcome.rejects).st.isPlaying = false ∧
    (togglePlayPause c0 PlayOutcome.rejects).ui.feedback
      = some ("Playback failed", FeedbackKind.error) :=
  togglePlayPause_rejection_handled c0 rfl

/-- C7: with a known duration d and a current position inside the track,
the j key sets the position to max 0 (position minus 10), the k key sets it
to min d (position plus 10), and neither result leaves the interval from 0
to d. -/
theorem keyboard_seek_stays_in_range (c : Ctrl) (d : ℚ)
    (hd : c.handle.duration = some d)
    (h0 : 0 ≤ c.handle.currentTime) (h1 : c.handle.currentTime ≤ d) :
    (keyJ c).handle.currentTime = max 0 (c.handle.currentTime - 10) ∧
    (keyK c).handle.currentTime = min d (c.handle.currentTime + 10) ∧
    0 ≤ (keyJ c).handle.currentTime ∧ (keyJ c).handle.currentTime ≤ d ∧
    0 ≤ (keyK c).handle.currentTime ∧ (keyK c).handle.currentTime ≤ d := by
  have hj : (keyJ c).handle.currentTime = max 0 (c.handle.currentTime - 10) := rfl
  have hk : (keyK c).handle.currentTime = min d (c.handle.currentTime + 10) := by
    simp [keyK, showFeedback, hd, SEEK_JUMP]
  have hd0 : (0 : ℚ) ≤ d := le_trans h0 h1
  refine ⟨hj, hk, ?_, ?_, ?_, ?_⟩
  · rw [hj]; exact le_max_left _ _
  · rw [hj]; exact max_le hd0 (by linarith)
  · rw [hk]; exact le_min hd0 (by linarith)
  · rw [hk]; exact min_le_left _ _

/-- C7 witness: position 3 seconds, duration 120 seconds; the j key lands
exactly on 0, not on minus 7. -/
theorem keyboard_seek_stays_in_range_witness :
    ((keyJ cKeyEx).handle.currentTime = max 0 (cKeyEx.handle.currentTime - 10) ∧
     (keyK cKeyEx).handle.currentTime = min 120 (cKeyEx.handle.currentTime + 10) ∧
     0 ≤ (keyJ cKeyEx).handle.currentTime ∧ (keyJ cKeyEx).handle.currentTime ≤ 120 ∧
     0 ≤ (keyK cKeyEx).handle.currentTime ∧ (keyK cKeyEx).handle.currentTime ≤ 120) ∧
    (keyJ cKeyEx).handle.currentTime = 0 :=
  ⟨keyboard_seek_stays_in_range cKeyEx 120 rfl (by norm_num [cKeyEx, c0])
     (by norm_num [cKeyEx, c0]),
   by norm_num [keyJ, showFeedback, SEEK_JUMP, cKeyEx, c0]⟩

/-- C9: while the handle is playing, the variant togglePlayPause only reads
the paused property (a no-op) and refreshes the icon, so the handle is left
completely unchanged and still playing, whereas the main togglePlayPause
pauses the handle; the two implementations produce different handles from
the same state. -/
theorem variantTogglePlayPause_playing_noop (c : Ctrl) (out : PlayOutcome)
    (h : c.handle.paused = false) :
    (variantTogglePlayPause c out).handle = c.handle ∧
    (variantTogglePlayPause c out).handle.paused = false ∧
    (togglePlayPause c out).handle.paused = true ∧
    (variantTogglePlayPause c out).handle ≠ (togglePlayPause c out).handle := by
  have h1 : (variantTogglePlayPause c out).handle = c.handle := by
    simp [variantTogglePlayPause, h, variantUpdatePlayPauseIcon]
  have h2 : (togglePlayPause c out).handle.paused = true := by
    simp [togglePlayPause, h, updatePlayPauseIcon]
  refine ⟨h1, by rw [h1]; exact h, h2, ?_⟩
  intro heq
  rw [h1] at heq
  rw [heq, h2] at h
  simp at h

/-- C9 witness: the two implementations diverge at the concrete playing
state. -/
theorem variantTogglePlayPause_playing_noop_witness :
    (variantTogglePlayPause cPlayingEx PlayOutcome.resolves).handle = cPlayingEx.handle ∧
    (variantTogglePlayPause cPlayingEx PlayOutcome.resolves).handle.paused = false ∧
    (togglePlayPause cPlayingEx PlayOutcome.resolves).handle.paused = true ∧
    (variantTogglePlayPause cPlayingEx PlayOutcome.resolves).handle
      ≠ (togglePlayPause cPlayingEx PlayOutcome.resolves).handle :=
  variantTogglePlayPause_playing_noop cPlayingEx PlayOutcome.resolves rfl

end AudioPlayer
